import Mathlib

/-!
Shallow embedding of the tool-resolution loop, the OpenAI tool-schema
converter and the FSA/HSA calculator tool of the agent-interview
repository (src/py_version), together with theorems settling the frozen
claims about them.

Conventions of the embedding:
* Python `None` versus a string value is `Option String`.
* The provider (network) call performed by `invoke_openai` is modelled as
  an oracle `provider : Nat → List Item → StepResult` mapping the index of
  the call and the current input list to the parsed structured response.
* The standard-library function `json.loads` is modelled by the record
  `JsonLib`: `loadsArgs` parses an arguments string into a keyword mapping
  (`none` means the parse raised), `loadsPayload` normalises a tool output
  string through loads-then-dumps (`none` means the parse raised) and
  `errMsg` is the text of the decode exception for a given input.
* Appended transcript entries keep their payload structurally (constructor
  `Payload`) rather than as the serialized string `json.dumps` produces;
  `dumpPayload` is the corresponding serialization.
* The embedded loop additionally returns the number of provider calls it
  performed; the source returns only the string and performs the calls as
  side effects.
-/

/-- Rendering of a Python optional string inside an f-string:
`None` prints as the text None, a string prints as itself. -/
def pyStrOpt : Option String → String
  | none => "None"
  | some s => s

/-- A parsed keyword-argument mapping (the result of `json.loads` on an
arguments string). Values are kept opaque as strings; the loop never
inspects them. -/
abbrev ArgMap := List (String × String)

/-- Model of the `json` standard-library calls the loop makes.
`loadsArgs s = none` models `json.loads(s)` raising at argument-parsing
position; `loadsPayload out = none` models `json.loads(output_str)`
raising on a tool output, otherwise `some` of the dumps-normalised text;
`errMsg out` is `str(e)` of that decode exception. -/
structure JsonLib where
  loadsArgs : String → Option ArgMap
  loadsPayload : String → Option String
  errMsg : String → String

/-- The structured result payload that the loop serializes with
`json.dumps` and appends as the output of one tool request.
`jsonOf s` is a successfully parsed tool output (normalised text `s`),
`error m i` is the mapping with keys error and input built on an
execution exception, `placeholder t` is the mapping with single key
result built for unexecuted requests. -/
inductive Payload where
  | jsonOf (s : String)
  | error (msg : String) (input : ArgMap)
  | placeholder (text : String)
deriving DecidableEq, Repr

/-- One entry of the loop input list. `raw` stands for an opaque item
(an initial input message or a provider output item); the other two are
the entries the loop itself appends. -/
inductive Item where
  | raw (data : String)
  | functionCallOutput (call_id : Option String) (output : Payload)
  | toolResult (tool_use_id : Option String) (content : Payload)
deriving DecidableEq, Repr

/-- A parsed function_call entry of a provider response
(dict with keys name, arguments, call_id in `invoke_openai`). -/
structure FunctionCall where
  name : Option String
  arguments : Option String
  call_id : Option String
deriving DecidableEq, Repr

/-- A parsed tool_use entry of a provider response (dict with keys id,
name, input in `invoke_openai`). The input object is kept by its Python
str() rendering, the only way the loop ever uses it. -/
structure ToolUse where
  id : Option String
  name : Option String
  input : String
deriving DecidableEq, Repr

/-- The structured value `invoke_openai` returns to the loop: the raw
output items, the collected function calls, the collected tool uses and
the convenience output text. -/
structure StepResult where
  output_items : List Item
  function_calls : List FunctionCall
  tool_uses : List ToolUse
  output_text : Option String
deriving DecidableEq, Repr

/-- A registered tool implementation: keyword arguments to either an
output string (`Except.ok`) or a raised exception text (`Except.error`). -/
abbrev ToolImpl := ArgMap → Except String String

/-- The parsed arguments of a function call, as computed at the top of the
per-request body: `json.loads` of the arguments string when it is a
string (a raised parse gives the empty mapping), the empty mapping when
the arguments value is None. -/
def parsedArgsOf (jl : JsonLib) (fc : FunctionCall) : ArgMap :=
  match fc.arguments with
  | some s => (jl.loadsArgs s).getD []
  | none => []

/-- The placeholder text built for a function call that is not executed. -/
def fcPlaceholderText (fc : FunctionCall) : String :=
  "Function \x27" ++ pyStrOpt fc.name ++ "\x27 called with args " ++
    pyStrOpt fc.arguments ++ ". Implementation needed."

/-- The placeholder text built for every tool_use entry. -/
def tuPlaceholderText (tu : ToolUse) : String :=
  "Tool \x27" ++ pyStrOpt tu.name ++ "\x27 called with args " ++
    tu.input ++ ". Implementation needed."

/-- The body of the try block around a tool execution: run the tool on
the parsed arguments, then `json.loads` its output; a raised exception
from either step is caught and turned into the error payload carrying
the exception text and the parsed arguments. -/
def runToolPayload (jl : JsonLib) (tool : ToolImpl) (args : ArgMap) : Payload :=
  match tool args with
  | Except.ok out =>
    match jl.loadsPayload out with
    | some norm => Payload.jsonOf norm
    | none => Payload.error ("Tool execution failed: " ++ jl.errMsg out) args
  | Except.error e => Payload.error ("Tool execution failed: " ++ e) args

/-- The result payload computed for one function call: a truthy name that
resolves in the registry leads to execution, anything else to the
placeholder branch (executed stays False). -/
def fcPayload (jl : JsonLib) (gt : String → Option ToolImpl)
    (fc : FunctionCall) : Payload :=
  match fc.name with
  | some n =>
    if n = "" then Payload.placeholder (fcPlaceholderText fc)
    else
      match gt n with
      | some tool => runToolPayload jl tool (parsedArgsOf jl fc)
      | none => Payload.placeholder (fcPlaceholderText fc)
  | none => Payload.placeholder (fcPlaceholderText fc)

/-- The function_call_output entry appended for one function call. -/
def processFC (jl : JsonLib) (gt : String → Option ToolImpl)
    (fc : FunctionCall) : Item :=
  Item.functionCallOutput fc.call_id (fcPayload jl gt fc)

/-- The tool_result entry appended for one tool_use entry: always the
placeholder, with no registry lookup and no execution. -/
def processTU (tu : ToolUse) : Item :=
  Item.toolResult tu.id (Payload.placeholder (tuPlaceholderText tu))

/-- All entries one loop iteration appends after the raw output items:
one function_call_output per function call, in order, followed by one
tool_result per tool_use, in order. -/
def iterationAppends (jl : JsonLib) (gt : String → Option ToolImpl)
    (r : StepResult) : List Item :=
  r.function_calls.map (processFC jl gt) ++ r.tool_uses.map processTU

/-- Serialization of a string value in the best-effort dump
(character escaping of `json.dumps` is not modelled; no claim depends
on it). -/
def dumpStr (s : String) : String := "\"" ++ s ++ "\""

/-- Serialization of an optional string: None dumps as null. -/
def dumpOptStr : Option String → String
  | none => "null"
  | some s => dumpStr s

/-- Serialization of a parsed argument mapping. -/
def dumpArgs (m : ArgMap) : String :=
  "\x7b" ++ String.intercalate ", "
    (m.map (fun kv => dumpStr kv.1 ++ ": " ++ dumpStr kv.2)) ++ "\x7d"

/-- Serialization of a result payload, the text `json.dumps` produces for
the corresponding Python mapping. -/
def dumpPayload : Payload → String
  | Payload.jsonOf s => s
  | Payload.error m i =>
    "\x7b\"error\": " ++ dumpStr m ++ ", \"input\": " ++ dumpArgs i ++ "\x7d"
  | Payload.placeholder t => "\x7b\"result\": " ++ dumpStr t ++ "\x7d"

/-- Serialization of one input-list entry. -/
def dumpItem : Item → String
  | Item.raw d => dumpStr d
  | Item.functionCallOutput cid p =>
    "\x7b\"type\": \"function_call_output\", \"call_id\": " ++ dumpOptStr cid ++
      ", \"output\": " ++ dumpStr (dumpPayload p) ++ "\x7d"
  | Item.toolResult tid p =>
    "\x7b\"type\": \"tool_result\", \"tool_use_id\": " ++ dumpOptStr tid ++
      ", \"content\": " ++ dumpStr (dumpPayload p) ++ "\x7d"

/-- Serialization of one collected function call. -/
def dumpFC (fc : FunctionCall) : String :=
  "\x7b\"name\": " ++ dumpOptStr fc.name ++ ", \"arguments\": " ++
    dumpOptStr fc.arguments ++ ", \"call_id\": " ++ dumpOptStr fc.call_id ++ "\x7d"

/-- Serialization of one collected tool_use entry. -/
def dumpTU (tu : ToolUse) : String :=
  "\x7b\"id\": " ++ dumpOptStr tu.id ++ ", \"name\": " ++ dumpOptStr tu.name ++
    ", \"input\": " ++ tu.input ++ "\x7d"

/-- The last-resort `json.dumps(result)` of the whole structured response,
used when the final response has no usable text. -/
def dumpsResult (r : StepResult) : String :=
  "\x7b\"output_items\": [" ++
    String.intercalate ", " (r.output_items.map dumpItem) ++
  "], \"function_calls\": [" ++
    String.intercalate ", " (r.function_calls.map dumpFC) ++
  "], \"tool_uses\": [" ++
    String.intercalate ", " (r.tool_uses.map dumpTU) ++
  "], \"output_text\": " ++ dumpOptStr r.output_text ++ "\x7d"

/-- Model of the Python str.strip() method: drop leading and trailing
whitespace characters (defined structurally on the character list so it
evaluates inside the kernel). -/
def pyStrip (s : String) : String :=
  String.mk (((s.data.dropWhile Char.isWhitespace).reverse.dropWhile
    Char.isWhitespace).reverse)

/-- The value returned when a response carries no tool requests: the
output text when it is a string whose strip is truthy, else the
best-effort dump of the whole result. -/
def finalText (r : StepResult) : String :=
  match r.output_text with
  | some t => if pyStrip t ≠ "" then t else dumpsResult r
  | none => dumpsResult r

/-- The sentinel string returned on iteration-budget exhaustion. -/
def maxIterSentinel : String :=
  "Reached max tool iterations without final answer."

/-- The source default of the max_iterations parameter. -/
def defaultMaxIterations : Nat := 5

/-- The iteration body of `invoke_openai_loop`, structurally recursive on
the remaining iteration budget. `calls` counts the provider calls made so
far; the result pairs the returned string with the total number of
provider calls performed. One iteration: call the provider, append its
raw output items, finish when there are neither function calls nor tool
uses, otherwise append the per-request result entries and continue. -/
def loopGo (jl : JsonLib) (gt : String → Option ToolImpl)
    (provider : Nat → List Item → StepResult) :
    Nat → Nat → List Item → String × Nat
  | 0, calls, _ => (maxIterSentinel, calls)
  | fuel + 1, calls, input =>
    let r := provider calls input
    let input2 := input ++ r.output_items
    if r.function_calls = [] ∧ r.tool_uses = [] then
      (finalText r, calls + 1)
    else
      loopGo jl gt provider fuel (calls + 1) (input2 ++ iterationAppends jl gt r)

/-- The tool-resolution loop `invoke_openai_loop`: run up to
`max_iterations` iterations starting from a copy of the given input list
with no provider calls made yet. -/
def invoke_openai_loop (jl : JsonLib) (gt : String → Option ToolImpl)
    (provider : Nat → List Item → StepResult)
    (input_list : List Item) (max_iterations : Nat) : String × Nat :=
  loopGo jl gt provider max_iterations 0 input_list

/-! ### The OpenAI tool-schema converter (llm_tool_converters/openai.py) -/

/-- Modelled from the spec: the InputType enum (module enums is imported
by the sources but its file is not under src); its members are the
parameter kinds of the spec data model, named as the converter and the
tool definitions reference them. -/
inductive InputType where
  | STRING
  | INTEGER
  | FLOAT
  | BOOLEAN
  | LIST
  | DICT
  | ANY
deriving DecidableEq, Repr

/-- One declared tool parameter (class ToolInput of tools/base.py). -/
structure ToolInput where
  name : String
  type : InputType
  description : String
  required : Bool
deriving DecidableEq, Repr

/-- A tool as the converter sees it (name, description and declared
inputs of schemas.Tool). -/
structure ToolSpec where
  name : String
  description : String
  inputs : List ToolInput
deriving DecidableEq, Repr

/-- One property of the generated parameters object. `additionalProperties`,
`properties` and `items` are `none` when the corresponding key is absent;
`properties` only ever holds the empty mapping and `items` holds the type
of the items schema. -/
structure OpenAIProperty where
  type : String
  description : String
  additionalProperties : Option Bool
  properties : Option (List (String × String))
  items : Option String
deriving DecidableEq, Repr

/-- The generated parameters object of one function schema. -/
structure OpenAIParameters where
  type : String
  properties : List (String × OpenAIProperty)
  required : List String
  additionalProperties : Bool
deriving DecidableEq, Repr

/-- The nested function member of the generated schema. -/
structure OpenAIFunctionDef where
  name : String
  description : String
  parameters : OpenAIParameters
deriving DecidableEq, Repr

/-- One generated OpenAI function schema, with the nested function member
and the duplicated top-level name, description and parameters. -/
structure OpenAIFunction where
  type : String
  function : OpenAIFunctionDef
  name : String
  description : String
  parameters : OpenAIParameters
  strict : Bool
deriving DecidableEq, Repr

/-- `input_type_to_openai_type`: the fixed kind-to-provider-type mapping
(the lookup default string of the source is unreachable because the
mapping lists every member). -/
def input_type_to_openai_type : InputType → String
  | InputType.STRING => "string"
  | InputType.INTEGER => "integer"
  | InputType.FLOAT => "number"
  | InputType.BOOLEAN => "boolean"
  | InputType.LIST => "array"
  | InputType.DICT => "object"
  | InputType.ANY => "string"

/-- Assignment into a Python dict rendered on an association list: an
existing key is updated in place, a new key is appended. -/
def dictInsert {α : Type} (d : List (String × α)) (k : String) (v : α) :
    List (String × α) :=
  if d.any (fun p => p.1 = k) then
    d.map (fun p => if p.1 = k then (k, v) else p)
  else d ++ [(k, v)]

/-- The property built for one tool input: the mapped type and the
description, plus the strict-schema extras (empty nested properties and
additionalProperties false for object, a default string items schema for
array). -/
def buildProperty (ti : ToolInput) : OpenAIProperty :=
  let t := input_type_to_openai_type ti.type
  if t = "object" then
    { type := t, description := ti.description,
      additionalProperties := some false, properties := some [], items := none }
  else if t = "array" then
    { type := t, description := ti.description,
      additionalProperties := none, properties := none, items := some "string" }
  else
    { type := t, description := ti.description,
      additionalProperties := none, properties := none, items := none }

/-- The properties dict accumulated over the inputs of one tool. -/
def buildProperties (inputs : List ToolInput) : List (String × OpenAIProperty) :=
  inputs.foldl (fun acc ti => dictInsert acc ti.name (buildProperty ti)) []

/-- Conversion of a single tool: the properties dict, a required list
holding every property key, additionalProperties false, strict true, and
the name, description and parameters duplicated at top level. -/
def convertOne (tool : ToolSpec) : OpenAIFunction :=
  let properties := buildProperties tool.inputs
  let required_fields := properties.map Prod.fst
  let parameters : OpenAIParameters :=
    { type := "object", properties := properties,
      required := required_fields, additionalProperties := false }
  { type := "function",
    function := { name := tool.name, description := tool.description,
                  parameters := parameters },
    name := tool.name, description := tool.description,
    parameters := parameters, strict := true }

/-- `convert_tools_to_openai`: convert every tool of the list. -/
def convert_tools_to_openai (tools : List ToolSpec) : List OpenAIFunction :=
  tools.map convertOne

/-! ### The FSA/HSA calculator tool (tools/fsa_hsa_calculator.py)

Python floats are embedded as the type `PyFloat`: a finite value over the
exact rationals, NaN, or a signed infinity. The float conversion of the
expense argument can succeed with a non-finite value (float of the
string nan succeeds, and json.loads accepts NaN), so NaN and the
infinities are part of the input domain; the comparison, min, max,
multiplication, subtraction and two-decimal round the tool performs are
given their Python semantics on these values. The finite two-decimal
`round` is modelled as round-half-up of 100 q to an integer (Python
rounds half to even; the settled order bounds are insensitive to the
choice). -/

/-- A stub registered tool that succeeds with a JSON object output. -/
def demoPensionTool : ToolImpl := fun _ => Except.ok "\x7b\"pension\": 100\x7d"

/-- A second stub registered tool with a distinct JSON object output. -/
def demoLookupTool : ToolImpl := fun _ => Except.ok "\x7b\"plan\": \"gold\"\x7d"

/-- A stub registered tool whose execution raises. -/
def demoFailTool : ToolImpl := fun _ => Except.error "boom"

/-- A concrete tool registry holding the three stub tools. -/
def demoGetTool : String → Option ToolImpl := fun n =>
  if n = "calculate_pension" then some demoPensionTool
  else if n = "health_insurance_lookup" then some demoLookupTool
  else if n = "fail_tool" then some demoFailTool
  else none

/-- A concrete JsonLib: only the empty object parses as arguments, every
payload parses and normalises to itself, decode errors all render the
same text. -/
def demoJsonLib : JsonLib :=
  { loadsArgs := fun s => if s = "\x7b\x7d" then some [] else none,
    loadsPayload := fun s => some s,
    errMsg := fun _ => "Expecting value" }

/-- A concrete function call requesting the pension stub tool. -/
def demoFC : FunctionCall :=
  { name := some "calculate_pension", arguments := some "\x7b\x7d",
    call_id := some "call_1" }

/-- A concrete tool_use entry naming a registered tool. -/
def demoTU : ToolUse :=
  { id := some "tu_1", name := some "health_insurance_lookup",
    input := "\x7b\x7d" }

/-- A concrete provider response carrying one function call and one
tool_use. -/
def demoStep : StepResult :=
  { output_items := [], function_calls := [demoFC], tool_uses := [demoTU],
    output_text := none }

/-- A provider response carrying only the tool_use request. -/
def demoStepTUOnly : StepResult :=
  { output_items := [], function_calls := [], tool_uses := [demoTU],
    output_text := none }

/-- A final provider response whose text is a single space. -/
def demoBlankStep : StepResult :=
  { output_items := [], function_calls := [], tool_uses := [],
    output_text := some " " }

/-- A final provider response with ordinary text. -/
def demoTextStep : StepResult :=
  { output_items := [], function_calls := [], tool_uses := [],
    output_text := some "hello" }

/-- A function call whose arguments string does not parse. -/
def demoBadArgsFC : FunctionCall :=
  { name := some "calculate_pension", arguments := some "\x7binvalid",
    call_id := some "call_2" }

/-- A function call with a missing name. -/
def demoNoNameFC : FunctionCall :=
  { name := none, arguments := some "\x7b\"x\": 1\x7d",
    call_id := some "call_3" }

/-- A function call requesting the raising stub tool. -/
def demoFailFC : FunctionCall :=
  { name := some "fail_tool", arguments := some "\x7b\x7d",
    call_id := some "call_9" }

/-- A declared optional integer parameter, for the converter witnesses. -/
def demoAgeInput : ToolInput :=
  { name := "current_age", type := InputType.INTEGER,
    description := "Employee current age", required := false }

/-- A declared map-kind parameter. -/
def demoFiltersInput : ToolInput :=
  { name := "filters", type := InputType.DICT,
    description := "Filter map", required := true }

/-- A declared list-kind parameter. -/
def demoTagsInput : ToolInput :=
  { name := "tags", type := InputType.LIST,
    description := "Tags", required := true }

/-- A concrete tool specification with a map, a list and an optional
parameter. -/
def demoToolSpec : ToolSpec :=
  { name := "demo_tool", description := "demo",
    inputs := [demoFiltersInput, demoTagsInput, demoAgeInput] }

/-- Unfolding equation of one loop iteration. -/
theorem loopGo_succ (jl : JsonLib) (gt : String → Option ToolImpl)
    (provider : Nat → List Item → StepResult) (fuel calls : Nat) (input : List Item) :
    loopGo jl gt provider (fuel + 1) calls input =
      (if (provider calls input).function_calls = []
          ∧ (provider calls input).tool_uses = [] then
        (finalText (provider calls input), calls + 1)
      else
        loopGo jl gt provider fuel (calls + 1)
          ((input ++ (provider calls input).output_items)
            ++ iterationAppends jl gt (provider calls input))) := rfl

/-- When every provider response requests at least one tool, the loop
consumes its whole budget, making one provider call per budget unit. -/
theorem loopGo_always_tools (jl : JsonLib) (gt : String → Option ToolImpl)
    (provider : Nat → List Item → StepResult)
    (h : ∀ calls input, ¬((provider calls input).function_calls = []
          ∧ (provider calls input).tool_uses = [])) :
    ∀ fuel calls input, loopGo jl gt provider fuel calls input
      = (maxIterSentinel, calls + fuel) := by
  intro fuel
  induction fuel with
  | zero => intro calls input; rfl
  | succ n ih =>
    intro calls input
    rw [loopGo_succ, if_neg (h calls input), ih]
    have hc : calls + 1 + n = calls + (n + 1) := by omega
    rw [hc]

/-- The best-effort dump of a structured result is never empty. -/
theorem dumpsResult_ne_empty (r : StepResult) : dumpsResult r ≠ "" := by
  have h18 : ("\x7b\"output_items\": [" : String).length = 18 := rfl
  have h0 : ("" : String).length = 0 := rfl
  intro h
  have hlen := congrArg String.length h
  rw [dumpsResult] at hlen
  simp only [String.length_append] at hlen
  rw [h18, h0] at hlen
  omega

/-- The value returned on successful termination is never empty. -/
theorem finalText_ne_empty (r : StepResult) : finalText r ≠ "" := by
  unfold finalText
  cases htext : r.output_text with
  | none => exact dumpsResult_ne_empty r
  | some t =>
    show (if pyStrip t ≠ "" then t else dumpsResult r) ≠ ""
    rcases eq_or_ne (pyStrip t) "" with ht | ht
    · rw [if_neg (fun hh => hh ht)]
      exact dumpsResult_ne_empty r
    · rw [if_pos ht]
      rintro rfl
      exact ht rfl

/-! ### Claims about the tool-resolution loop -/

/-- C1: in one iteration whose response carries tool requests, the loop
appends exactly one result entry per request before the next provider
call: first one function_call_output per function call, in request
order, each carrying the call_id of its request, then one tool_result
per tool_use, in request order, each carrying the id of its request. -/
theorem c1_results_per_iteration (jl : JsonLib) (gt : String → Option ToolImpl)
    (provider : Nat → List Item → StepResult) (fuel calls : Nat) (input : List Item)
    (r : StepResult) (hr : provider calls input = r)
    (hne : ¬(r.function_calls = [] ∧ r.tool_uses = [])) :
    loopGo jl gt provider (fuel + 1) calls input
      = loopGo jl gt provider fuel (calls + 1)
          ((input ++ r.output_items) ++ iterationAppends jl gt r)
    ∧ (iterationAppends jl gt r).length
        = r.function_calls.length + r.tool_uses.length
    ∧ (∀ (i : Nat) (fc : FunctionCall), r.function_calls[i]? = some fc →
        (iterationAppends jl gt r)[i]?
          = some (Item.functionCallOutput fc.call_id (fcPayload jl gt fc)))
    ∧ (∀ (j : Nat) (tu : ToolUse), r.tool_uses[j]? = some tu →
        (iterationAppends jl gt r)[r.function_calls.length + j]?
          = some (Item.toolResult tu.id
              (Payload.placeholder (tuPlaceholderText tu)))) := by
  subst hr
  refine ⟨?_, ?_, ?_, ?_⟩
  · rw [loopGo_succ, if_neg hne]
  · simp [iterationAppends]
  · intro i fc hfc
    have hi : i < (provider calls input).function_calls.length := by
      rcases List.getElem?_eq_some_iff.mp hfc with ⟨h, _⟩
      exact h
    unfold iterationAppends
    have hlen : i < (List.map (processFC jl gt)
        (provider calls input).function_calls).length := by simpa using hi
    rw [List.getElem?_append_left hlen]
    simp [hfc, processFC]
  · intro j tu htu
    unfold iterationAppends
    have hge : (List.map (processFC jl gt)
          (provider calls input).function_calls).length
        ≤ (provider calls input).function_calls.length + j := by simp
    rw [List.getElem?_append_right hge]
    simp [htu, processTU]

/-- Witness for C1 at a concrete response with one function call and one
tool_use. -/
theorem c1_results_per_iteration_witness :
    (iterationAppends demoJsonLib demoGetTool demoStep).length
        = demoStep.function_calls.length + demoStep.tool_uses.length
    ∧ (iterationAppends demoJsonLib demoGetTool demoStep)[0]?
        = some (Item.functionCallOutput (some "call_1")
            (fcPayload demoJsonLib demoGetTool demoFC))
    ∧ (iterationAppends demoJsonLib demoGetTool demoStep)[1]?
        = some (Item.toolResult (some "tu_1")
            (Payload.placeholder (tuPlaceholderText demoTU))) :=
  ⟨(c1_results_per_iteration demoJsonLib demoGetTool (fun _ _ => demoStep) 0 0 []
      demoStep rfl (by simp [demoStep])).2.1,
   (c1_results_per_iteration demoJsonLib demoGetTool (fun _ _ => demoStep) 0 0 []
      demoStep rfl (by simp [demoStep])).2.2.1 0 demoFC rfl,
   (c1_results_per_iteration demoJsonLib demoGetTool (fun _ _ => demoStep) 0 0 []
      demoStep rfl (by simp [demoStep])).2.2.2 0 demoTU rfl⟩

/-- C2: when every provider response requests at least one tool, the loop
makes exactly max_iterations provider calls, never one more, and returns
the fixed sentinel string; the source default of max_iterations is 5. -/
theorem c2_exhaustion (jl : JsonLib) (gt : String → Option ToolImpl)
    (provider : Nat → List Item → StepResult)
    (input_list : List Item) (max_iterations : Nat)
    (h : ∀ calls input, ¬((provider calls input).function_calls = []
          ∧ (provider calls input).tool_uses = [])) :
    invoke_openai_loop jl gt provider input_list max_iterations
      = (maxIterSentinel, max_iterations)
    ∧ defaultMaxIterations = 5 := by
  constructor
  · unfold invoke_openai_loop
    rw [loopGo_always_tools jl gt provider h max_iterations 0 input_list]
    simp
  · rfl

/-- Witness for C2: a provider stub that always requests a tool, run with
the default budget of 5, yields the sentinel after exactly 5 calls. -/
theorem c2_exhaustion_witness :
    invoke_openai_loop demoJsonLib demoGetTool (fun _ _ => demoStep) [] 5
      = (maxIterSentinel, 5)
    ∧ defaultMaxIterations = 5 :=
  c2_exhaustion demoJsonLib demoGetTool (fun _ _ => demoStep) [] 5
    (fun _ _ => by simp [demoStep])

/-- C3 counterexample: the claim extends execution of registered tools to
the tool_use channel, but a tool_use entry naming the registered lookup
tool still gets the placeholder result appended; the appended payload is
not the payload the registered tool returns. -/
theorem c3_counterexample :
    demoGetTool "health_insurance_lookup" = some demoLookupTool
    ∧ demoLookupTool [] = Except.ok "\x7b\"plan\": \"gold\"\x7d"
    ∧ iterationAppends demoJsonLib demoGetTool demoStepTUOnly
        = [Item.toolResult (some "tu_1") (Payload.placeholder
            "Tool \x27health_insurance_lookup\x27 called with args \x7b\x7d. Implementation needed.")]
    ∧ Payload.placeholder
          "Tool \x27health_insurance_lookup\x27 called with args \x7b\x7d. Implementation needed."
        ≠ Payload.jsonOf "\x7b\"plan\": \"gold\"\x7d" :=
  ⟨rfl, rfl, rfl, by decide⟩

/-- C3 amended: a function_call request whose non-empty name is
registered is looked up and executed, and when its output string parses
as JSON the appended result carries that payload; a tool_use request, by
contrast, always receives the placeholder result and is never executed. -/
theorem c3_function_call_executes (jl : JsonLib) (gt : String → Option ToolImpl)
    (fc : FunctionCall) (n : String) (tool : ToolImpl) (out norm : String)
    (hn : fc.name = some n) (hne : n ≠ "") (hgt : gt n = some tool)
    (hrun : tool (parsedArgsOf jl fc) = Except.ok out)
    (hload : jl.loadsPayload out = some norm) :
    processFC jl gt fc = Item.functionCallOutput fc.call_id (Payload.jsonOf norm)
    ∧ ∀ tu : ToolUse, processTU tu
        = Item.toolResult tu.id (Payload.placeholder (tuPlaceholderText tu)) := by
  refine ⟨?_, fun tu => rfl⟩
  unfold processFC
  congr 1
  simp only [fcPayload, hn, if_neg hne, hgt, runToolPayload, hrun, hload]

/-- Witness for the amended C3 at the concrete pension function call and
the concrete tool_use entry. -/
theorem c3_function_call_executes_witness :
    processFC demoJsonLib demoGetTool demoFC
      = Item.functionCallOutput (some "call_1")
          (Payload.jsonOf "\x7b\"pension\": 100\x7d")
    ∧ processTU demoTU
        = Item.toolResult (some "tu_1") (Payload.placeholder
            "Tool \x27health_insurance_lookup\x27 called with args \x7b\x7d. Implementation needed.") :=
  ⟨(c3_function_call_executes demoJsonLib demoGetTool demoFC "calculate_pension"
      demoPensionTool "\x7b\"pension\": 100\x7d" "\x7b\"pension\": 100\x7d"
      rfl (by decide) rfl rfl rfl).1,
   (c3_function_call_executes demoJsonLib demoGetTool demoFC "calculate_pension"
      demoPensionTool "\x7b\"pension\": 100\x7d" "\x7b\"pension\": 100\x7d"
      rfl (by decide) rfl rfl rfl).2 demoTU⟩

/-- C4 counterexample: with a final response whose text is the non-empty
but all-whitespace string of one space, the loop does not return that
text; it returns the serialization fallback instead, so returning the
text for every non-empty text is false. -/
theorem c4_counterexample :
    demoBlankStep.output_text = some " "
    ∧ (" " : String) ≠ ""
    ∧ invoke_openai_loop demoJsonLib demoGetTool (fun _ _ => demoBlankStep) [] 5
        = (dumpsResult demoBlankStep, 1)
    ∧ dumpsResult demoBlankStep ≠ " " :=
  ⟨rfl, by decide, rfl, by decide⟩

/-- C4 amended: on a response with no tool requests the loop terminates
in that iteration; it returns the text whenever the text strips to
something non-empty (contains a non-whitespace character), and otherwise
(text missing, empty or all whitespace) returns the never-empty
best-effort serialization of the full structured response; the embedded
loop is total, so no exception escapes. -/
theorem c4_no_tools_termination (jl : JsonLib) (gt : String → Option ToolImpl)
    (provider : Nat → List Item → StepResult) (fuel calls : Nat) (input : List Item)
    (r : StepResult) (hr : provider calls input = r)
    (hfc : r.function_calls = []) (htu : r.tool_uses = []) :
    loopGo jl gt provider (fuel + 1) calls input = (finalText r, calls + 1)
    ∧ (∀ t, r.output_text = some t → pyStrip t ≠ "" → finalText r = t)
    ∧ (r.output_text = none → finalText r = dumpsResult r)
    ∧ (∀ t, r.output_text = some t → pyStrip t = "" → finalText r = dumpsResult r)
    ∧ finalText r ≠ "" := by
  subst hr
  refine ⟨?_, ?_, ?_, ?_, finalText_ne_empty _⟩
  · rw [loopGo_succ, if_pos ⟨hfc, htu⟩]
  · intro t ht htrim
    unfold finalText
    rw [ht]
    exact if_pos htrim
  · intro ht
    unfold finalText
    rw [ht]
  · intro t ht htrim
    unfold finalText
    rw [ht]
    exact if_neg (fun hh => hh htrim)

/-- Witness for the amended C4: a concrete final response with text
hello is returned verbatim in one iteration. -/
theorem c4_no_tools_termination_witness :
    loopGo demoJsonLib demoGetTool (fun _ _ => demoTextStep) 1 0 []
      = (finalText demoTextStep, 1)
    ∧ finalText demoTextStep = "hello"
    ∧ finalText demoTextStep ≠ "" :=
  ⟨(c4_no_tools_termination demoJsonLib demoGetTool (fun _ _ => demoTextStep)
      0 0 [] demoTextStep rfl rfl rfl).1,
   (c4_no_tools_termination demoJsonLib demoGetTool (fun _ _ => demoTextStep)
      0 0 [] demoTextStep rfl rfl rfl).2.1 "hello" rfl (by decide),
   (c4_no_tools_termination demoJsonLib demoGetTool (fun _ _ => demoTextStep)
      0 0 [] demoTextStep rfl rfl rfl).2.2.2.2⟩

/-- C5: a tool whose execution raises never propagates the exception (the
embedded per-request step is a total function); the appended result for
that request is the error payload carrying the exception description and
the parsed arguments, and it occurs among the entries the iteration
appends. -/
theorem c5_tool_exception_payload (jl : JsonLib) (gt : String → Option ToolImpl)
    (fc : FunctionCall) (n : String) (tool : ToolImpl) (e : String)
    (hn : fc.name = some n) (hne : n ≠ "") (hgt : gt n = some tool)
    (hrun : tool (parsedArgsOf jl fc) = Except.error e) :
    processFC jl gt fc
      = Item.functionCallOutput fc.call_id
          (Payload.error ("Tool execution failed: " ++ e) (parsedArgsOf jl fc))
    ∧ ∀ r : StepResult, fc ∈ r.function_calls →
        Item.functionCallOutput fc.call_id
            (Payload.error ("Tool execution failed: " ++ e) (parsedArgsOf jl fc))
          ∈ iterationAppends jl gt r := by
  have hpay : processFC jl gt fc
      = Item.functionCallOutput fc.call_id
          (Payload.error ("Tool execution failed: " ++ e) (parsedArgsOf jl fc)) := by
    unfold processFC
    congr 1
    simp only [fcPayload, hn, if_neg hne, hgt, runToolPayload, hrun]
  refine ⟨hpay, fun r hmem => ?_⟩
  unfold iterationAppends
  refine List.mem_append_left _ ?_
  have := List.mem_map_of_mem (processFC jl gt) hmem
  rwa [hpay] at this

/-- Witness for C5 at the concrete raising stub tool. -/
theorem c5_tool_exception_payload_witness :
    processFC demoJsonLib demoGetTool demoFailFC
      = Item.functionCallOutput (some "call_9")
          (Payload.error "Tool execution failed: boom" []) :=
  (c5_tool_exception_payload demoJsonLib demoGetTool demoFailFC "fail_tool"
      demoFailTool "boom" rfl (by decide) rfl rfl).1

/-- C6: when the arguments string of a request does not parse as JSON,
no exception escapes (the embedded step is total): the parsed mapping is
empty and the registered tool named by the request is invoked with that
empty mapping. -/
theorem c6_malformed_args_empty_mapping (jl : JsonLib) (gt : String → Option ToolImpl)
    (fc : FunctionCall) (n s : String) (tool : ToolImpl)
    (hargs : fc.arguments = some s) (hparse : jl.loadsArgs s = none)
    (hn : fc.name = some n) (hne : n ≠ "") (hgt : gt n = some tool) :
    parsedArgsOf jl fc = []
    ∧ processFC jl gt fc
        = Item.functionCallOutput fc.call_id (runToolPayload jl tool []) := by
  have hp : parsedArgsOf jl fc = [] := by
    unfold parsedArgsOf
    rw [hargs]
    show (jl.loadsArgs s).getD [] = []
    rw [hparse]
    rfl
  refine ⟨hp, ?_⟩
  unfold processFC
  congr 1
  simp only [fcPayload, hn, if_neg hne, hgt, hp]

/-- Witness for C6: the arguments string of demoBadArgsFC does not parse
under demoJsonLib, and the pension stub tool runs on the empty mapping. -/
theorem c6_malformed_args_empty_mapping_witness :
    parsedArgsOf demoJsonLib demoBadArgsFC = []
    ∧ processFC demoJsonLib demoGetTool demoBadArgsFC
        = Item.functionCallOutput (some "call_2")
            (runToolPayload demoJsonLib demoPensionTool [])
    ∧ runToolPayload demoJsonLib demoPensionTool []
        = Payload.jsonOf "\x7b\"pension\": 100\x7d" :=
  ⟨(c6_malformed_args_empty_mapping demoJsonLib demoGetTool demoBadArgsFC
      "calculate_pension" "\x7binvalid" demoPensionTool rfl rfl rfl (by decide) rfl).1,
   (c6_malformed_args_empty_mapping demoJsonLib demoGetTool demoBadArgsFC
      "calculate_pension" "\x7binvalid" demoPensionTool rfl rfl rfl (by decide) rfl).2,
   rfl⟩

/-- C7: a request whose name is missing or empty, or names an
unregistered tool, is never executed: the appended result is the
placeholder payload, whose text contains the literal substring
Implementation needed. -/
theorem c7_unknown_tool_placeholder (jl : JsonLib) (gt : String → Option ToolImpl)
    (fc : FunctionCall)
    (h : fc.name = none ∨ fc.name = some ""
        ∨ ∃ n, fc.name = some n ∧ gt n = none) :
    processFC jl gt fc
      = Item.functionCallOutput fc.call_id
          (Payload.placeholder (fcPlaceholderText fc))
    ∧ ∃ pre post, fcPlaceholderText fc = pre ++ "Implementation needed" ++ post := by
  constructor
  · unfold processFC
    congr 1
    rcases h with h | h | ⟨n, hn, hgt⟩
    · simp [fcPayload, h]
    · simp [fcPayload, h]
    · by_cases hn0 : n = ""
      · simp [fcPayload, hn, hn0]
      · simp [fcPayload, hn, hn0, hgt]
  · refine ⟨"Function \x27" ++ pyStrOpt fc.name ++ "\x27 called with args "
        ++ pyStrOpt fc.arguments ++ ". ", ".", ?_⟩
    have hlit : (". Implementation needed." : String)
        = ". " ++ "Implementation needed" ++ "." := rfl
    unfold fcPlaceholderText
    rw [hlit]
    simp [String.append_assoc]

/-- Witness for C7 at the concrete request with a missing name. -/
theorem c7_unknown_tool_placeholder_witness :
    processFC demoJsonLib demoGetTool demoNoNameFC
      = Item.functionCallOutput (some "call_3")
          (Payload.placeholder
            "Function \x27None\x27 called with args \x7b\"x\": 1\x7d. Implementation needed.")
    ∧ ∃ pre post, fcPlaceholderText demoNoNameFC
        = pre ++ "Implementation needed" ++ post :=
  ⟨(c7_unknown_tool_placeholder demoJsonLib demoGetTool demoNoNameFC (Or.inl rfl)).1,
   (c7_unknown_tool_placeholder demoJsonLib demoGetTool demoNoNameFC (Or.inl rfl)).2⟩

/-! ### Claims about the schema converter -/

/-- The assigned key is a key of the dict after assignment. -/
theorem dictInsert_mem_key {α : Type} (d : List (String × α)) (k : String) (v : α) :
    k ∈ (dictInsert d k v).map Prod.fst := by
  unfold dictInsert
  by_cases h : d.any (fun p => p.1 = k)
  · rw [if_pos h]
    rcases List.any_eq_true.mp h with ⟨p, hp, hpk⟩
    have hpk2 : p.1 = k := by simpa using hpk
    refine List.mem_map.mpr ⟨(k, v), ?_, rfl⟩
    refine List.mem_map.mpr ⟨p, hp, ?_⟩
    rw [if_pos hpk2]
  · rw [if_neg h]
    simp

/-- Existing keys of a dict survive any assignment. -/
theorem dictInsert_mem_key_mono {α : Type} (d : List (String × α)) (k0 k : String)
    (v : α) (h : k ∈ d.map Prod.fst) : k ∈ (dictInsert d k0 v).map Prod.fst := by
  unfold dictInsert
  by_cases hany : d.any (fun p => p.1 = k0)
  · rw [if_pos hany]
    rcases List.mem_map.mp h with ⟨p, hp, hpk⟩
    refine List.mem_map.mpr
      ⟨if p.1 = k0 then (k0, v) else p, List.mem_map_of_mem _ hp, ?_⟩
    by_cases hpk0 : p.1 = k0
    · rw [if_pos hpk0]
      exact hpk0.symm.trans hpk
    · rw [if_neg hpk0]
      exact hpk
  · rw [if_neg hany]
    simp [h]

/-- Keys of the accumulator survive the whole properties fold. -/
theorem buildProperties_go_mono (l : List ToolInput) :
    ∀ (acc : List (String × OpenAIProperty)) (k : String),
      k ∈ acc.map Prod.fst →
      k ∈ (l.foldl (fun a t => dictInsert a t.name (buildProperty t)) acc).map
            Prod.fst := by
  induction l with
  | nil => intro acc k h; simpa using h
  | cons x xs ih =>
    intro acc k h
    exact ih _ k (dictInsert_mem_key_mono acc x.name k _ h)

/-- Every declared input name is a key of the accumulated properties
dict. -/
theorem buildProperties_go_mem (l : List ToolInput) :
    ∀ (acc : List (String × OpenAIProperty)) (ti : ToolInput), ti ∈ l →
      ti.name ∈ (l.foldl (fun a t => dictInsert a t.name (buildProperty t)) acc).map
            Prod.fst := by
  induction l with
  | nil => intro acc ti h; cases h
  | cons x xs ih =>
    intro acc ti h
    rcases List.mem_cons.mp h with rfl | h
    · exact buildProperties_go_mono xs _ ti.name (dictInsert_mem_key acc ti.name _)
    · exact ih _ ti h

/-- C8: for every tool and every declared parameter, with no condition on
the parameter required flag, the converted schema lists the parameter
name in the required array (both in the nested function member and at
top level) and sets additionalProperties to false. -/
theorem c8_strict_required_all (tools : List ToolSpec) (tool : ToolSpec)
    (ti : ToolInput) (htool : tool ∈ tools) (hti : ti ∈ tool.inputs) :
    convertOne tool ∈ convert_tools_to_openai tools
    ∧ ti.name ∈ (convertOne tool).parameters.required
    ∧ (convertOne tool).parameters.additionalProperties = false
    ∧ ti.name ∈ (convertOne tool).function.parameters.required
    ∧ (convertOne tool).function.parameters.additionalProperties = false := by
  have hreq : ti.name ∈ (buildProperties tool.inputs).map Prod.fst :=
    buildProperties_go_mem tool.inputs [] ti hti
  exact ⟨List.mem_map_of_mem convertOne htool, hreq, rfl, hreq, rfl⟩

/-- Witness for C8: the optional (required = false) age parameter of the
demo tool still appears in the required array. -/
theorem c8_strict_required_all_witness :
    convertOne demoToolSpec ∈ convert_tools_to_openai [demoToolSpec]
    ∧ "current_age" ∈ (convertOne demoToolSpec).parameters.required
    ∧ (convertOne demoToolSpec).parameters.additionalProperties = false
    ∧ demoAgeInput.required = false :=
  ⟨(c8_strict_required_all [demoToolSpec] demoToolSpec demoAgeInput
      (by decide) (by decide)).1,
   (c8_strict_required_all [demoToolSpec] demoToolSpec demoAgeInput
      (by decide) (by decide)).2.1,
   (c8_strict_required_all [demoToolSpec] demoToolSpec demoAgeInput
      (by decide) (by decide)).2.2.1,
   rfl⟩

/-- The property built for any input satisfies the strict-schema extras:
an object-typed property carries additionalProperties false and an empty
nested properties map, an array-typed property carries string items. -/
theorem buildProperty_strict (ti : ToolInput) :
    ((buildProperty ti).type = "object" →
      (buildProperty ti).additionalProperties = some false
      ∧ (buildProperty ti).properties = some [])
    ∧ ((buildProperty ti).type = "array" →
      (buildProperty ti).items = some "string") := by
  cases h : ti.type <;>
    simp [buildProperty, input_type_to_openai_type, h]

/-- Every value stored by a dict assignment is the assigned value or one
already present. -/
theorem dictInsert_values {α : Type} (P : α → Prop) (d : List (String × α))
    (k : String) (v : α) (hd : ∀ kp ∈ d, P kp.2) (hv : P v) :
    ∀ kp ∈ dictInsert d k v, P kp.2 := by
  intro kp hkp
  unfold dictInsert at hkp
  by_cases hany : d.any (fun p => p.1 = k)
  · rw [if_pos hany] at hkp
    rcases List.mem_map.mp hkp with ⟨p, hp, hpe⟩
    by_cases hpk : p.1 = k
    · rw [if_pos hpk] at hpe
      subst hpe
      exact hv
    · rw [if_neg hpk] at hpe
      subst hpe
      exact hd p hp
  · rw [if_neg hany] at hkp
    rcases List.mem_append.mp hkp with h | h
    · exact hd kp h
    · rcases List.mem_singleton.mp h with rfl
      exact hv

/-- Every value of the accumulated properties dict is the built property
of some input, hence satisfies the strict-schema extras. -/
theorem buildProperties_go_values (l : List ToolInput) :
    ∀ acc : List (String × OpenAIProperty),
      (∀ kp ∈ acc,
        ((kp.2 : OpenAIProperty).type = "object" →
          kp.2.additionalProperties = some false ∧ kp.2.properties = some [])
        ∧ (kp.2.type = "array" → kp.2.items = some "string")) →
      ∀ kp ∈ l.foldl (fun a t => dictInsert a t.name (buildProperty t)) acc,
        ((kp.2 : OpenAIProperty).type = "object" →
          kp.2.additionalProperties = some false ∧ kp.2.properties = some [])
        ∧ (kp.2.type = "array" → kp.2.items = some "string") := by
  induction l with
  | nil => intro acc hacc; simpa using hacc
  | cons x xs ih =>
    intro acc hacc
    exact ih _ (dictInsert_values
      (fun p => (p.type = "object" →
          p.additionalProperties = some false ∧ p.properties = some [])
        ∧ (p.type = "array" → p.items = some "string"))
      acc x.name (buildProperty x) hacc (buildProperty_strict x))

/-- C9: the parameter kind maps to the provider type by the fixed table,
and every property of a converted schema that is object-typed carries the
explicit empty nested properties map with additionalProperties false,
while every array-typed property carries the default string items
schema. -/
theorem c9_type_mapping_and_nested (tool : ToolSpec) (k : String)
    (p : OpenAIProperty)
    (hmem : (k, p) ∈ (convertOne tool).parameters.properties) :
    (input_type_to_openai_type InputType.STRING = "string"
     ∧ input_type_to_openai_type InputType.INTEGER = "integer"
     ∧ input_type_to_openai_type InputType.FLOAT = "number"
     ∧ input_type_to_openai_type InputType.BOOLEAN = "boolean"
     ∧ input_type_to_openai_type InputType.LIST = "array"
     ∧ input_type_to_openai_type InputType.DICT = "object"
     ∧ input_type_to_openai_type InputType.ANY = "string")
    ∧ (p.type = "object" →
        p.additionalProperties = some false ∧ p.properties = some [])
    ∧ (p.type = "array" → p.items = some "string") := by
  refine ⟨⟨rfl, rfl, rfl, rfl, rfl, rfl, rfl⟩, ?_⟩
  exact buildProperties_go_values tool.inputs []
    (by intro kp h; cases h) (k, p) hmem

/-- Witness for C9 at the demo tool with a map-kind and a list-kind
parameter. -/
theorem c9_type_mapping_and_nested_witness :
    input_type_to_openai_type InputType.FLOAT = "number"
    ∧ (buildProperty demoFiltersInput).additionalProperties = some false
    ∧ (buildProperty demoFiltersInput).properties = some []
    ∧ (buildProperty demoTagsInput).items = some "string" :=
  ⟨(c9_type_mapping_and_nested demoToolSpec "filters"
      (buildProperty demoFiltersInput) (by decide)).1.2.2.1,
   ((c9_type_mapping_and_nested demoToolSpec "filters"
      (buildProperty demoFiltersInput) (by decide)).2.1 rfl).1,
   ((c9_type_mapping_and_nested demoToolSpec "filters"
      (buildProperty demoFiltersInput) (by decide)).2.1 rfl).2,
   (c9_type_mapping_and_nested demoToolSpec "tags"
      (buildProperty demoTagsInput) (by decide)).2.2 rfl⟩

/-! ### Claims about the FSA/HSA calculator -/

